import Mathlib

set_option maxRecDepth 8192

/-!
Shallow embedding of the `rados` Go package (Go bindings for librados).

The native librados call surface is opaque to the Go code: every native
call returns a signed status (negative on failure) and possibly fills a
buffer or a statistics struct.  We model that surface as an explicit
environment `NativeEnv` of oracle functions, and translate each Go
function of `rados.go` into a pure Lean function over that environment.
Byte buffers are `List Nat`; machine integers that the Go code compares
against zero are `Int`; the `uint64` statistics fields are `Nat`.
-/

/-- The four fields of `C.struct_rados_cluster_stat_t` used by the code
(`kb`, `kb_used`, `kb_avail`, `num_objects`), all `uint64` in C. -/
structure ClusterStat where
  kb : Nat
  kb_used : Nat
  kb_avail : Nat
  num_objects : Nat
deriving DecidableEq, Repr

/-- The Go `Rados` struct: the opaque native handle `rados` carries no
client-visible state, so the model keeps only the four cached
statistics fields. -/
structure Rados where
  size : Nat
  used : Nat
  avail : Nat
  nObjects : Nat
deriving DecidableEq, Repr

/-- Native calls issued by the Go code, recorded as an effect trace.
`confRead true` is `rados_conf_read_file(handle, nil)` (default search
paths, taken when `configFile == ""`); `confRead false` passes the
given path. -/
inductive NCall where
  | create
  | confRead (useDefault : Bool)
  | connect
  | clusterStat
  | shutdown
deriving DecidableEq, Repr

/-- Behaviour of the native librados call surface, one oracle per call
site.  `poolList n` is `rados_pool_list` invoked with a buffer of `n`
bytes: it yields the returned signed count and the buffer contents
after the call. `strerrorFn` is libc `strerror`. -/
structure NativeEnv where
  strerrorFn : Int → String
  createRet : Int
  confReadRet : Bool → Int
  connectRet : Int
  clusterStatRet : Int
  clusterStatVal : ClusterStat
  poolCreateRet : String → Int
  poolDeleteRet : String → Int
  poolList : Nat → Int × List Nat

/-- Go `strerror(cerr)`: `C.GoString(C.strerror(-cerr))` — libc lookup
applied to the negated status code. -/
def strerror (env : NativeEnv) (cerr : Int) : String :=
  env.strerrorFn (-cerr)

/-- Go `&Rados{}`: the zero value the handle starts from in `New`. -/
def Rados.initial : Rados :=
  { size := 0, used := 0, avail := 0, nObjects := 0 }

/-- Go `(r *Rados) Stat()`: on a negative `rados_cluster_stat` status it
returns the mapped error and leaves every cached field untouched; on
success it overwrites all four cached fields from the fetched struct
and returns nil.  The pair is (returned error, resulting struct). -/
def Rados.Stat (env : NativeEnv) (r : Rados) : Option String × Rados :=
  if env.clusterStatRet < 0 then
    (some ("RADOS cluster stat: " ++ strerror env env.clusterStatRet), r)
  else
    (none,
      { size := env.clusterStatVal.kb
        used := env.clusterStatVal.kb_used
        avail := env.clusterStatVal.kb_avail
        nObjects := env.clusterStatVal.num_objects })

/-- Go `(r *Rados) Size()`: pure accessor over the cached field. -/
def Rados.Size (r : Rados) : Nat := r.size

/-- Go `(r *Rados) Used()`: pure accessor over the cached field. -/
def Rados.Used (r : Rados) : Nat := r.used

/-- Go `(r *Rados) Avail()`: pure accessor over the cached field. -/
def Rados.Avail (r : Rados) : Nat := r.avail

/-- Go `(r *Rados) NObjects()`: pure accessor over the cached field. -/
def Rados.NObjects (r : Rados) : Nat := r.nObjects

/-- Go `(r *Rados) Release()`: calls `rados_shutdown` and returns nil,
unconditionally.  The pair is (returned error, native calls issued). -/
def Rados.Release (r : Rados) : Option String × List NCall :=
  (none, [NCall.shutdown])

/-- Go `New(configFile)`: create handle, load config (default search
paths when the path is empty), connect, then eagerly `Stat`; the first
negative status aborts with the mapped error, and a `Stat` failure
releases the partially-built handle before returning.  The pair is
(result, trace of native calls issued). -/
def New (env : NativeEnv) (configFile : String) :
    Except String Rados × List NCall :=
  if env.createRet < 0 then
    (Except.error ("RADOS create: " ++ strerror env env.createRet),
      [NCall.create])
  else
    let useDefault := configFile == ""
    let cerr := env.confReadRet useDefault
    if cerr < 0 then
      (Except.error ("RADOS config: " ++ strerror env cerr),
        [NCall.create, NCall.confRead useDefault])
    else if env.connectRet < 0 then
      (Except.error ("RADOS connect: " ++ strerror env env.connectRet),
        [NCall.create, NCall.confRead useDefault, NCall.connect])
    else
      match Rados.Stat env Rados.initial with
      | (some e, r) =>
        (Except.error e,
          [NCall.create, NCall.confRead useDefault, NCall.connect,
            NCall.clusterStat] ++ (Rados.Release r).2)
      | (none, r) =>
        (Except.ok r,
          [NCall.create, NCall.confRead useDefault, NCall.connect,
            NCall.clusterStat])

/-- Go `NewDefault()`: `r, err = New(""); return r, err`. -/
def NewDefault (env : NativeEnv) : Except String Rados × List NCall :=
  New env ""

/-- Go `(r *Rados) CreatePool(poolName)`: single native attempt; a
negative status maps to an error naming the operation and the pool. -/
def Rados.CreatePool (env : NativeEnv) (r : Rados) (poolName : String) :
    Option String :=
  if env.poolCreateRet poolName < 0 then
    some ("RADOS pool create " ++ poolName ++ ": "
      ++ strerror env (env.poolCreateRet poolName))
  else none

/-- Go `(r *Rados) DeletePool(poolName)`: single native attempt; a
negative status maps to an error naming the operation and the pool. -/
def Rados.DeletePool (env : NativeEnv) (r : Rados) (poolName : String) :
    Option String :=
  if env.poolDeleteRet poolName < 0 then
    some ("RADOS pool delete " ++ poolName ++ ": "
      ++ strerror env (env.poolDeleteRet poolName))
  else none

/-- Go `bytes.Split(buf, []byte{0})`: split a byte list at every NUL
byte; adjacent NULs and a trailing NUL yield empty segments. -/
def splitNul : List Nat → List (List Nat)
  | [] => [[]]
  | b :: rest =>
    if b = 0 then [] :: splitNul rest
    else
      match splitNul rest with
      | [] => [[b]]
      | g :: gs => (b :: g) :: gs

/-- The parsing phase of Go `ListPools`: split the buffer on NUL bytes
and keep only the non-empty segments. -/
def parsePools (buf : List Nat) : List (List Nat) :=
  (splitNul buf).filter (fun s => s ≠ [])

/-- The retry loop of Go `ListPools`, with explicit fuel standing in
for the unbounded `for` loop: allocate `bufSize` bytes, call
`rados_pool_list`; a negative count aborts with the mapped error, a
count exceeding the buffer size retries with exactly that count as the
new size, and otherwise the loop stops with the filled buffer.
`none` means the fuel ran out before the loop finished. -/
def listPoolsLoop (env : NativeEnv) :
    Nat → Nat → Option (Except String (List Nat))
  | 0, _ => none
  | fuel + 1, bufSize =>
    let res := env.poolList bufSize
    if res.1 < 0 then
      some (Except.error ("RADOS list pools: " ++ strerror env res.1))
    else if bufSize < res.1.toNat then
      listPoolsLoop env fuel res.1.toNat
    else
      some (Except.ok res.2)

/-- Go `(r *Rados) ListPools()`: run the retry loop starting from the
initial 256-byte guess, then parse the final buffer. -/
def ListPools (env : NativeEnv) (fuel : Nat) :
    Option (Except String (List (List Nat))) :=
  match listPoolsLoop env fuel 256 with
  | none => none
  | some (Except.error e) => some (Except.error e)
  | some (Except.ok buf) => some (Except.ok (parsePools buf))

/-- Modelled from the spec: the state of a pool-scoped `Context` — the
`Context` implementation is not under src (only its tests and the spec
describe it).  A pool maps object names to their byte content. -/
def CtxState : Type := String → Option (List Nat)

/-- Modelled from the spec: `Context.Put(name, data)` writes the full
byte content, a whole-object replace truncating to exactly the payload
length. -/
def ctxPut (st : CtxState) (name : String) (d : List Nat) : CtxState :=
  fun n => if n = name then some d else st n

/-- Modelled from the spec: `Context.Get(name)` reads the object's full
content, exactly `size` bytes; fails if the object does not exist. -/
def ctxGet (st : CtxState) (name : String) : Except String (List Nat) :=
  match st name with
  | some d => Except.ok d
  | none => Except.error "RADOS get: object not found"

/-- Modelled from the spec: `Context.Stat(name)` reports the object's
byte size; fails if the object does not exist. -/
def ctxStat (st : CtxState) (name : String) : Except String Nat :=
  match st name with
  | some d => Except.ok d.length
  | none => Except.error "RADOS stat: object not found"

/-- Modelled from the spec: `Context.Open(name)` is open-or-create — on
a name that does not yet exist it implicitly creates a zero-length
object, and on an existing name it leaves the content unchanged. -/
def ctxOpen (st : CtxState) (name : String) : CtxState :=
  match st name with
  | some _ => st
  | none => ctxPut st name []

/-- Serialisation of a pool-name list in the `rados_pool_list` buffer
format the Go comment describes: each name NUL-terminated, with a
trailing sentinel NUL at the end. -/
def encodePools (names : List (List Nat)) : List Nat :=
  names.foldr (fun n acc => n ++ 0 :: acc) [0]

/-- A native environment where every call succeeds: statistics are
⟨100, 40, 60, 7⟩ and the pool-list buffer holds the single name
"test" (bytes 116 101 115 116) followed by its sentinel NUL. -/
def baseEnv : NativeEnv :=
  { strerrorFn := fun _ => "err"
    createRet := 0
    confReadRet := fun _ => 0
    connectRet := 0
    clusterStatRet := 0
    clusterStatVal := ⟨100, 40, 60, 7⟩
    poolCreateRet := fun _ => 0
    poolDeleteRet := fun _ => 0
    poolList := fun _ => (5, [116, 101, 115, 116, 0]) }

/-- An environment where only the cluster-statistics fetch fails. -/
def envStatFail : NativeEnv :=
  { baseEnv with clusterStatRet := -5 }

/-- An environment where every native call fails with status -2. -/
def envAllFail : NativeEnv :=
  { baseEnv with
    strerrorFn := fun _ => "boom"
    createRet := -2
    confReadRet := fun _ => -2
    connectRet := -2
    clusterStatRet := -2
    poolCreateRet := fun _ => -2
    poolDeleteRet := fun _ => -2
    poolList := fun _ => (-2, []) }

/-- An environment where only the configuration load fails, with
status -3. -/
def envConfFail : NativeEnv :=
  { baseEnv with
    strerrorFn := fun _ => "boom"
    confReadRet := fun _ => -3 }

/-- An environment where only the connect step fails, with status -4. -/
def envConnectFail : NativeEnv :=
  { baseEnv with
    strerrorFn := fun _ => "boom"
    connectRet := -4 }

/-- An environment whose pool-list call always fails with status -1. -/
def envAbort : NativeEnv :=
  { baseEnv with poolList := fun _ => (-1, []) }

/-- An environment whose pool-list call demands 300 bytes when offered
fewer, and succeeds with the name "a" once the buffer is 300 bytes or
larger: it forces exactly one growth step from the initial 256. -/
def envGrowStep : NativeEnv :=
  { baseEnv with
    poolList := fun n =>
      if n < 300 then ((300 : Int), List.replicate n 0)
      else ((5 : Int), [97, 0, 0]) }

/-- An environment whose pool-list buffer lists the name "a" twice,
padded with NULs to the full 256-byte buffer. -/
def envDup : NativeEnv :=
  { baseEnv with
    poolList := fun _ => (4, [97, 0, 97, 0] ++ List.replicate 252 0) }

/-- An adversarial environment whose pool-list call always demands one
byte more than the offered buffer, so the retry loop never stops. -/
def envGrowing : NativeEnv :=
  { baseEnv with poolList := fun n => ((n : Int) + 1, []) }

/-- C1: for every object name and every byte payload `d`, including the
empty payload, `Put(name, d)` followed by `Get(name)` on the same
Context returns exactly `d`. -/
theorem ctx_put_get_roundtrip (st : CtxState) (name : String)
    (d : List Nat) :
    ctxGet (ctxPut st name d) name = Except.ok d ∧
      ctxGet (ctxPut st name []) name = Except.ok [] := by
  constructor <;> simp [ctxGet, ctxPut]

/-- C8: `Context.Open` on a name that does not yet exist succeeds and
implicitly creates a zero-length object: immediately after `Open` on a
fresh name, `Stat` on that name succeeds and reports size 0. -/
theorem open_implicit_create (st : CtxState) (name : String)
    (hfresh : st name = none) :
    ctxStat (ctxOpen st name) name = Except.ok 0 := by
  simp [ctxStat, ctxOpen, ctxPut, hfresh]

/-- Witness for C8 at the empty store and the fresh name `"x"`. -/
theorem open_implicit_create_witness :
    ctxStat (ctxOpen (fun _ => none) "x") "x" = Except.ok 0 :=
  open_implicit_create (fun _ => none) "x" rfl

/-- C9: `Rados.Release` always returns nil — it never reports an error,
whatever the state of the native handle. -/
theorem release_always_nil (r : Rados) :
    (Rados.Release r).1 = none := by
  simp [Rados.Release]

/-- C10: `NewDefault()` is exactly `New("")`, and the empty
configuration path makes the config-load call consult the native
default search locations (the `confRead true` native call) whenever
handle creation succeeds. -/
theorem newDefault_eq_new_empty (env : NativeEnv) :
    NewDefault env = New env "" ∧
      (0 ≤ env.createRet → NCall.confRead true ∈ (NewDefault env).2) := by
  refine ⟨rfl, fun hc => ?_⟩
  have hnot : ¬ env.createRet < 0 := not_lt.mpr hc
  unfold NewDefault New
  simp only [hnot, if_false]
  split
  · simp
  · split
    · simp
    · split <;> simp

/-- Witness for C10 at a concrete environment with successful create. -/
theorem newDefault_eq_new_empty_witness :
    NewDefault baseEnv = New baseEnv "" ∧
      NCall.confRead true ∈ (NewDefault baseEnv).2 := by
  exact ⟨(newDefault_eq_new_empty baseEnv).1,
    (newDefault_eq_new_empty baseEnv).2 (by decide)⟩

/-- C2: the `ListPools` size-negotiation protocol: the loop starts from
a 256-byte buffer; each iteration's native call either returns a
negative status (abort with the mapped error), or a non-negative
required count — a count exceeding the buffer size makes the next
iteration use a buffer of exactly that size, and otherwise the loop
stops and the buffer is parsed and returned. -/
theorem listPools_size_negotiation (env : NativeEnv) :
    (∀ fuel bufSize, (env.poolList bufSize).1 < 0 →
      listPoolsLoop env (fuel + 1) bufSize =
        some (Except.error ("RADOS list pools: "
          ++ env.strerrorFn (-(env.poolList bufSize).1)))) ∧
    (∀ fuel bufSize, 0 ≤ (env.poolList bufSize).1 →
      bufSize < (env.poolList bufSize).1.toNat →
      listPoolsLoop env (fuel + 1) bufSize =
        listPoolsLoop env fuel (env.poolList bufSize).1.toNat) ∧
    (∀ fuel bufSize, 0 ≤ (env.poolList bufSize).1 →
      (env.poolList bufSize).1.toNat ≤ bufSize →
      listPoolsLoop env (fuel + 1) bufSize =
        some (Except.ok (env.poolList bufSize).2)) ∧
    (∀ fuel, (env.poolList 256).1 < 0 →
      ListPools env (fuel + 1) =
        some (Except.error ("RADOS list pools: "
          ++ env.strerrorFn (-(env.poolList 256).1)))) ∧
    (∀ fuel, 0 ≤ (env.poolList 256).1 →
      (env.poolList 256).1.toNat ≤ 256 →
      ListPools env (fuel + 1) =
        some (Except.ok (parsePools (env.poolList 256).2))) := by
  have habort : ∀ fuel bufSize, (env.poolList bufSize).1 < 0 →
      listPoolsLoop env (fuel + 1) bufSize =
        some (Except.error ("RADOS list pools: "
          ++ env.strerrorFn (-(env.poolList bufSize).1))) := by
    intro fuel bufSize h
    simp [listPoolsLoop, strerror, h]
  have hgrow : ∀ fuel bufSize, 0 ≤ (env.poolList bufSize).1 →
      bufSize < (env.poolList bufSize).1.toNat →
      listPoolsLoop env (fuel + 1) bufSize =
        listPoolsLoop env fuel (env.poolList bufSize).1.toNat := by
    intro fuel bufSize h1 h2
    simp [listPoolsLoop, not_lt.mpr h1, h2]
  have hstop : ∀ fuel bufSize, 0 ≤ (env.poolList bufSize).1 →
      (env.poolList bufSize).1.toNat ≤ bufSize →
      listPoolsLoop env (fuel + 1) bufSize =
        some (Except.ok (env.poolList bufSize).2) := by
    intro fuel bufSize h1 h2
    simp [listPoolsLoop, not_lt.mpr h1, not_lt.mpr h2]
  refine ⟨habort, hgrow, hstop, ?_, ?_⟩
  · intro fuel h
    unfold ListPools
    rw [habort fuel 256 h]
  · intro fuel h1 h2
    unfold ListPools
    rw [hstop fuel 256 h1 h2]

/-- Witness for C2: the abort conjuncts at `envAbort`, the growth
conjunct at `envGrowStep`, and the stop conjuncts at `baseEnv`. -/
theorem listPools_size_negotiation_witness :
    listPoolsLoop envAbort 1 256 =
      some (Except.error ("RADOS list pools: "
        ++ envAbort.strerrorFn (-(envAbort.poolList 256).1))) ∧
    listPoolsLoop envGrowStep 1 256 =
      listPoolsLoop envGrowStep 0 ((envGrowStep.poolList 256).1.toNat) ∧
    listPoolsLoop baseEnv 1 256 =
      some (Except.ok (baseEnv.poolList 256).2) ∧
    ListPools envAbort 1 =
      some (Except.error ("RADOS list pools: "
        ++ envAbort.strerrorFn (-(envAbort.poolList 256).1))) ∧
    ListPools baseEnv 1 =
      some (Except.ok (parsePools (baseEnv.poolList 256).2)) :=
  ⟨(listPools_size_negotiation envAbort).1 0 256 (by decide),
    (listPools_size_negotiation envGrowStep).2.1 0 256 (by decide) (by decide),
    (listPools_size_negotiation baseEnv).2.2.1 0 256 (by decide) (by decide),
    (listPools_size_negotiation envAbort).2.2.2.1 0 (by decide),
    (listPools_size_negotiation baseEnv).2.2.2.2 0 (by decide) (by decide)⟩

theorem listPoolsLoop_envGrowing_none :
    ∀ (k b : Nat), listPoolsLoop envGrowing k b = none := by
  intro k
  induction k with
  | zero => intro b; rfl
  | succ k ih =>
    intro b
    have h1 : ¬ ((b : Int) + 1 < 0) := by omega
    have h2 : b < ((b : Int) + 1).toNat := by omega
    simpa [listPoolsLoop, envGrowing, baseEnv, h1, h2] using ih (b + 1)

/-- C3: the retry loop of `ListPools` has no iteration cap of its own —
for every fuel bound there is a native behaviour that exhausts it — and
under the precondition that a call offered a buffer at least as large
as a previously reported requirement returns a non-negative count
fitting that buffer, the loop finishes within two iterations. -/
theorem listPools_uncapped_terminates :
    (∀ k, ∃ env : NativeEnv, listPoolsLoop env k 256 = none) ∧
    ∀ env : NativeEnv,
      (∀ b b₀ : Nat, 0 ≤ (env.poolList b₀).1 →
        (env.poolList b₀).1.toNat ≤ b →
        0 ≤ (env.poolList b).1 ∧ (env.poolList b).1.toNat ≤ b) →
      ∀ fuel, (listPoolsLoop env (fuel + 2) 256).isSome = true := by
  constructor
  · intro k
    exact ⟨envGrowing, listPoolsLoop_envGrowing_none k 256⟩
  · intro env H fuel
    by_cases hneg : (env.poolList 256).1 < 0
    · simp [listPoolsLoop, hneg]
    · by_cases hbig : 256 < (env.poolList 256).1.toNat
      · have hH := H ((env.poolList 256).1.toNat) 256 (not_lt.mp hneg) le_rfl
        have hneg2 : ¬ ((env.poolList ((env.poolList 256).1.toNat)).1 < 0) :=
          not_lt.mpr hH.1
        have hfit2 : ¬ ((env.poolList 256).1.toNat <
            (env.poolList ((env.poolList 256).1.toNat)).1.toNat) :=
          not_lt.mpr hH.2
        simp [listPoolsLoop, hneg, hbig, hneg2, hfit2]
      · simp [listPoolsLoop, hneg, hbig]

/-- Witness for C3's termination part at `baseEnv`, whose pool-list
call always reports 5 required bytes. -/
theorem listPools_uncapped_terminates_witness :
    (listPoolsLoop baseEnv 2 256).isSome = true :=
  listPools_uncapped_terminates.2 baseEnv
    (fun b b₀ h1 h2 => ⟨by norm_num [baseEnv], by simpa [baseEnv] using h2⟩) 0

/-- Counterexample for C4: when the native pool-list buffer lists the
name "a" (byte 97) twice, `ListPools` succeeds and returns it twice —
the parsing deduplicates nothing, so the result is not duplicate-free
as claimed. -/
theorem listPools_duplicates_counterexample :
    ListPools envDup 1 = some (Except.ok [[97], [97]]) ∧
      ¬ ([[97], [97]] : List (List Nat)).Nodup := by
  constructor
  · rfl
  · decide

theorem splitNul_replicate (k : Nat) :
    splitNul (List.replicate k 0) = List.replicate (k + 1) [] := by
  induction k with
  | zero => rfl
  | succ k ih => simp [List.replicate_succ, splitNul, ih]

theorem splitNul_append_nul (n rest : List Nat) (h : 0 ∉ n) :
    splitNul (n ++ 0 :: rest) = n :: splitNul rest := by
  induction n with
  | nil => simp [splitNul]
  | cons b bs ih =>
    have hb : ¬ b = 0 := fun hb0 => h (hb0 ▸ List.mem_cons_self b bs)
    have hbs : 0 ∉ bs := fun hm => h (List.mem_cons_of_mem b hm)
    simp [splitNul, hb, ih hbs]

theorem filter_nonempty_replicate_nil (k : Nat) :
    (List.replicate k ([] : List Nat)).filter (fun s => s ≠ []) = [] := by
  induction k with
  | zero => rfl
  | succ k ih => simp [List.replicate_succ, List.filter, ih]

/-- C4 amended: every entry in a successful `ListPools` result is
non-empty, and parsing splits the buffer on NUL bytes and discards
every empty segment including the trailing sentinel (a NUL-terminated
name list followed by any NUL padding parses back to exactly the
names); the code, however, performs no deduplication, so entries are
unique only when the native buffer lists each pool name once. -/
theorem listPools_entries_nonempty_split :
    (∀ (env : NativeEnv) (fuel : Nat) (res : List (List Nat)),
      ListPools env fuel = some (Except.ok res) →
      ∀ s ∈ res, s ≠ []) ∧
    (∀ (names : List (List Nat)) (pad : Nat),
      (∀ n ∈ names, n ≠ [] ∧ 0 ∉ n) →
      parsePools (encodePools names ++ List.replicate pad 0) = names) := by
  constructor
  · intro env fuel res hres s hs
    unfold ListPools at hres
    rcases hloop : listPoolsLoop env fuel 256 with _ | e
    · rw [hloop] at hres; exact absurd hres (by simp)
    · rcases e with e | buf
      · rw [hloop] at hres; exact absurd hres (by simp)
      · rw [hloop] at hres
        simp only [Option.some.injEq, Except.ok.injEq] at hres
        subst hres
        have := List.of_mem_filter hs
        simpa using this
  · intro names
    induction names with
    | nil =>
      intro pad _
      have : encodePools [] ++ List.replicate pad 0 =
          List.replicate (pad + 1) 0 := by
        simp [encodePools, List.replicate_succ]
      rw [this]
      unfold parsePools
      rw [splitNul_replicate]
      exact filter_nonempty_replicate_nil (pad + 2)
    | cons n ns ih =>
      intro pad hnames
      have hn := hnames n (List.mem_cons_self n ns)
      have hns : ∀ m ∈ ns, m ≠ [] ∧ 0 ∉ m :=
        fun m hm => hnames m (List.mem_cons_of_mem n hm)
      have henc : encodePools (n :: ns) ++ List.replicate pad 0 =
          n ++ 0 :: (encodePools ns ++ List.replicate pad 0) := by
        simp [encodePools]
      rw [henc]
      unfold parsePools
      rw [splitNul_append_nul _ _ hn.2]
      have hrest := ih pad hns
      unfold parsePools at hrest
      simp [List.filter_cons, hn.1]
      simpa using hrest

/-- Witness for C4 amended: the non-emptiness part at `envDup`'s
concrete result, and the round-trip part at the two names "a" and "b"
with three bytes of padding. -/
theorem listPools_entries_nonempty_split_witness :
    (∀ s ∈ [[97], [97]], s ≠ ([] : List Nat)) ∧
      parsePools (encodePools [[97], [98]] ++ List.replicate 3 0) =
        [[97], [98]] :=
  ⟨listPools_entries_nonempty_split.1 envDup 1 [[97], [97]] (by rfl),
    listPools_entries_nonempty_split.2 [[97], [98]] 3 (by decide)⟩

theorem new_create_fail (env : NativeEnv) (configFile : String)
    (h : env.createRet < 0) :
    New env configFile =
      (Except.error ("RADOS create: " ++ strerror env env.createRet),
        [NCall.create]) := by
  simp [New, h]

theorem new_config_fail (env : NativeEnv) (configFile : String)
    (h1 : ¬ env.createRet < 0)
    (h2 : env.confReadRet (configFile == "") < 0) :
    New env configFile =
      (Except.error ("RADOS config: "
        ++ strerror env (env.confReadRet (configFile == ""))),
        [NCall.create, NCall.confRead (configFile == "")]) := by
  simp [New, h1, h2]

theorem new_connect_fail (env : NativeEnv) (configFile : String)
    (h1 : ¬ env.createRet < 0)
    (h2 : ¬ env.confReadRet (configFile == "") < 0)
    (h3 : env.connectRet < 0) :
    New env configFile =
      (Except.error ("RADOS connect: " ++ strerror env env.connectRet),
        [NCall.create, NCall.confRead (configFile == ""),
          NCall.connect]) := by
  simp [New, h1, h2, h3]

theorem new_stat_fail (env : NativeEnv) (configFile : String)
    (h1 : ¬ env.createRet < 0)
    (h2 : ¬ env.confReadRet (configFile == "") < 0)
    (h3 : ¬ env.connectRet < 0) (h4 : env.clusterStatRet < 0) :
    New env configFile =
      (Except.error ("RADOS cluster stat: "
        ++ strerror env env.clusterStatRet),
        [NCall.create, NCall.confRead (configFile == ""), NCall.connect,
          NCall.clusterStat, NCall.shutdown]) := by
  simp [New, Rados.Stat, Rados.Release, h1, h2, h3, h4]

theorem new_ok (env : NativeEnv) (configFile : String)
    (h1 : ¬ env.createRet < 0)
    (h2 : ¬ env.confReadRet (configFile == "") < 0)
    (h3 : ¬ env.connectRet < 0) (h4 : ¬ env.clusterStatRet < 0) :
    New env configFile =
      (Except.ok
        { size := env.clusterStatVal.kb
          used := env.clusterStatVal.kb_used
          avail := env.clusterStatVal.kb_avail
          nObjects := env.clusterStatVal.num_objects },
        [NCall.create, NCall.confRead (configFile == ""), NCall.connect,
          NCall.clusterStat]) := by
  simp [New, Rados.Stat, h1, h2, h3, h4]

/-- C5: `New` is all-or-nothing: whenever any step (handle allocation,
config load, connect, or the eager statistics fetch) fails, `New`
returns an error and no handle; when the statistics fetch is the
failing step the partially-built handle is released (`rados_shutdown`
appears in the trace) before returning; and an `ok` result is only
possible when every step succeeded. -/
theorem new_all_or_nothing (env : NativeEnv) (configFile : String) :
    ((env.createRet < 0 ∨ env.confReadRet (configFile == "") < 0 ∨
        env.connectRet < 0 ∨ env.clusterStatRet < 0) →
      ∃ msg, (New env configFile).1 = Except.error msg) ∧
    (¬ env.createRet < 0 → ¬ env.confReadRet (configFile == "") < 0 →
      ¬ env.connectRet < 0 → env.clusterStatRet < 0 →
      NCall.shutdown ∈ (New env configFile).2) ∧
    (∀ r, (New env configFile).1 = Except.ok r →
      ¬ env.createRet < 0 ∧ ¬ env.confReadRet (configFile == "") < 0 ∧
        ¬ env.connectRet < 0 ∧ ¬ env.clusterStatRet < 0) := by
  refine ⟨?_, ?_, ?_⟩
  · intro h
    by_cases h1 : env.createRet < 0
    · exact ⟨"RADOS create: " ++ strerror env env.createRet,
        by rw [new_create_fail env configFile h1]⟩
    · by_cases h2 : env.confReadRet (configFile == "") < 0
      · exact ⟨"RADOS config: "
            ++ strerror env (env.confReadRet (configFile == "")),
          by rw [new_config_fail env configFile h1 h2]⟩
      · by_cases h3 : env.connectRet < 0
        · exact ⟨"RADOS connect: " ++ strerror env env.connectRet,
            by rw [new_connect_fail env configFile h1 h2 h3]⟩
        · by_cases h4 : env.clusterStatRet < 0
          · exact ⟨"RADOS cluster stat: "
                ++ strerror env env.clusterStatRet,
              by rw [new_stat_fail env configFile h1 h2 h3 h4]⟩
          · rcases h with h | h | h | h
            · exact absurd h h1
            · exact absurd h h2
            · exact absurd h h3
            · exact absurd h h4
  · intro h1 h2 h3 h4
    rw [new_stat_fail env configFile h1 h2 h3 h4]
    simp
  · intro r hr
    by_cases h1 : env.createRet < 0
    · rw [new_create_fail env configFile h1] at hr
      simp at hr
    · by_cases h2 : env.confReadRet (configFile == "") < 0
      · rw [new_config_fail env configFile h1 h2] at hr
        simp at hr
      · by_cases h3 : env.connectRet < 0
        · rw [new_connect_fail env configFile h1 h2 h3] at hr
          simp at hr
        · by_cases h4 : env.clusterStatRet < 0
          · rw [new_stat_fail env configFile h1 h2 h3 h4] at hr
            simp at hr
          · exact ⟨h1, h2, h3, h4⟩

/-- Witness for C5: the failing conjuncts at `envStatFail` with a
concrete configuration path, and the ok conjunct at `baseEnv`. -/
theorem new_all_or_nothing_witness :
    (∃ msg, (New envStatFail "/etc/ceph/ceph.conf").1 =
      Except.error msg) ∧
    NCall.shutdown ∈ (New envStatFail "/etc/ceph/ceph.conf").2 ∧
    (¬ baseEnv.createRet < 0 ∧ ¬ baseEnv.confReadRet ("" == "") < 0 ∧
      ¬ baseEnv.connectRet < 0 ∧ ¬ baseEnv.clusterStatRet < 0) :=
  ⟨(new_all_or_nothing envStatFail "/etc/ceph/ceph.conf").1
      (Or.inr (Or.inr (Or.inr (by decide)))),
    (new_all_or_nothing envStatFail "/etc/ceph/ceph.conf").2.1
      (by decide) (by decide) (by decide) (by decide),
    (new_all_or_nothing baseEnv "").2.2
      { size := 100, used := 40, avail := 60, nObjects := 7 } (by rfl)⟩

/-- C6: `Rados.Stat` updates the cached statistics atomically: on a
negative native status it returns an error and leaves all four cached
fields unchanged; on success it returns nil and overwrites all four
fields together with the fetched values, which the four accessors then
return. -/
theorem stat_atomic_update (env : NativeEnv) (r : Rados) :
    (env.clusterStatRet < 0 →
      (∃ msg, (Rados.Stat env r).1 = some msg) ∧
        (Rados.Stat env r).2 = r) ∧
    (¬ env.clusterStatRet < 0 →
      (Rados.Stat env r).1 = none ∧
        (Rados.Stat env r).2.Size = env.clusterStatVal.kb ∧
        (Rados.Stat env r).2.Used = env.clusterStatVal.kb_used ∧
        (Rados.Stat env r).2.Avail = env.clusterStatVal.kb_avail ∧
        (Rados.Stat env r).2.NObjects = env.clusterStatVal.num_objects) := by
  constructor
  · intro h
    exact ⟨⟨"RADOS cluster stat: " ++ strerror env env.clusterStatRet,
      by simp [Rados.Stat, h]⟩, by simp [Rados.Stat, h]⟩
  · intro h
    simp [Rados.Stat, Rados.Size, Rados.Used, Rados.Avail,
      Rados.NObjects, h]

/-- Witness for C6: the failure conjunct at `envStatFail` and the
success conjunct at `baseEnv`, both on the cache ⟨9, 9, 9, 9⟩. -/
theorem stat_atomic_update_witness :
    ((∃ msg, (Rados.Stat envStatFail ⟨9, 9, 9, 9⟩).1 = some msg) ∧
      (Rados.Stat envStatFail ⟨9, 9, 9, 9⟩).2 = ⟨9, 9, 9, 9⟩) ∧
    ((Rados.Stat baseEnv ⟨9, 9, 9, 9⟩).1 = none ∧
      (Rados.Stat baseEnv ⟨9, 9, 9, 9⟩).2.Size =
        baseEnv.clusterStatVal.kb ∧
      (Rados.Stat baseEnv ⟨9, 9, 9, 9⟩).2.Used =
        baseEnv.clusterStatVal.kb_used ∧
      (Rados.Stat baseEnv ⟨9, 9, 9, 9⟩).2.Avail =
        baseEnv.clusterStatVal.kb_avail ∧
      (Rados.Stat baseEnv ⟨9, 9, 9, 9⟩).2.NObjects =
        baseEnv.clusterStatVal.num_objects) :=
  ⟨(stat_atomic_update envStatFail ⟨9, 9, 9, 9⟩).1 (by decide),
    (stat_atomic_update baseEnv ⟨9, 9, 9, 9⟩).2 (by decide)⟩

/-- C7: every operation that receives a negative native status returns
an error whose message names the failing operation, includes the
relevant identifier (the pool name for CreatePool and DeletePool), and
carries the cause text from the code-to-text lookup applied to the
negated status code; no negative native return is silently swallowed.
The seven negative-status sites of the code are covered: in `New`,
`rados_create`, `rados_conf_read_file` (reached once create succeeds)
and `rados_connect` (reached once create and config succeed), then
`rados_pool_create`, `rados_pool_delete`, `rados_pool_list` and
`rados_cluster_stat`. -/
theorem errors_mapped_with_context (env : NativeEnv) (r : Rados)
    (configFile name : String) :
    (env.createRet < 0 →
      (New env configFile).1 =
        Except.error ("RADOS create: "
          ++ env.strerrorFn (-env.createRet))) ∧
    (¬ env.createRet < 0 →
      env.confReadRet (configFile == "") < 0 →
      (New env configFile).1 =
        Except.error ("RADOS config: "
          ++ env.strerrorFn (-(env.confReadRet (configFile == ""))))) ∧
    (¬ env.createRet < 0 →
      ¬ env.confReadRet (configFile == "") < 0 →
      env.connectRet < 0 →
      (New env configFile).1 =
        Except.error ("RADOS connect: "
          ++ env.strerrorFn (-env.connectRet))) ∧
    (env.poolCreateRet name < 0 →
      Rados.CreatePool env r name =
        some ("RADOS pool create " ++ name ++ ": "
          ++ env.strerrorFn (-(env.poolCreateRet name)))) ∧
    (env.poolDeleteRet name < 0 →
      Rados.DeletePool env r name =
        some ("RADOS pool delete " ++ name ++ ": "
          ++ env.strerrorFn (-(env.poolDeleteRet name)))) ∧
    (∀ fuel bufSize, (env.poolList bufSize).1 < 0 →
      listPoolsLoop env (fuel + 1) bufSize =
        some (Except.error ("RADOS list pools: "
          ++ env.strerrorFn (-(env.poolList bufSize).1)))) ∧
    (env.clusterStatRet < 0 →
      (Rados.Stat env r).1 =
        some ("RADOS cluster stat: "
          ++ env.strerrorFn (-env.clusterStatRet))) := by
  refine ⟨?_, ?_, ?_, ?_, ?_, ?_, ?_⟩
  · intro h
    simp [New, strerror, h]
  · intro h1 h2
    simp [New, strerror, h1, h2]
  · intro h1 h2 h3
    simp [New, strerror, h1, h2, h3]
  · intro h
    simp [Rados.CreatePool, strerror, h]
  · intro h
    simp [Rados.DeletePool, strerror, h]
  · intro fuel bufSize h
    simp [listPoolsLoop, strerror, h]
  · intro h
    simp [Rados.Stat, strerror, h]

/-- Witness for C7: the create, pool and statistics failures at
`envAllFail` (every call failing with status -2), the config-load
failure at `envConfFail` (status -3) and the connect failure at
`envConnectFail` (status -4), with the code-to-text lookup answering
"boom" in each. -/
theorem errors_mapped_with_context_witness :
    (New envAllFail "x").1 =
      Except.error ("RADOS create: "
        ++ envAllFail.strerrorFn (-envAllFail.createRet)) ∧
    (New envConfFail "x").1 =
      Except.error ("RADOS config: "
        ++ envConfFail.strerrorFn (-(envConfFail.confReadRet ("x" == "")))) ∧
    (New envConnectFail "x").1 =
      Except.error ("RADOS connect: "
        ++ envConnectFail.strerrorFn (-envConnectFail.connectRet)) ∧
    Rados.CreatePool envAllFail ⟨0, 0, 0, 0⟩ "p" =
      some ("RADOS pool create " ++ "p" ++ ": "
        ++ envAllFail.strerrorFn (-(envAllFail.poolCreateRet "p"))) ∧
    Rados.DeletePool envAllFail ⟨0, 0, 0, 0⟩ "p" =
      some ("RADOS pool delete " ++ "p" ++ ": "
        ++ envAllFail.strerrorFn (-(envAllFail.poolDeleteRet "p"))) ∧
    listPoolsLoop envAllFail 1 256 =
      some (Except.error ("RADOS list pools: "
        ++ envAllFail.strerrorFn (-(envAllFail.poolList 256).1))) ∧
    (Rados.Stat envAllFail ⟨0, 0, 0, 0⟩).1 =
      some ("RADOS cluster stat: "
        ++ envAllFail.strerrorFn (-envAllFail.clusterStatRet)) :=
  ⟨(errors_mapped_with_context envAllFail ⟨0, 0, 0, 0⟩ "x" "p").1
      (by decide),
    (errors_mapped_with_context envConfFail ⟨0, 0, 0, 0⟩ "x" "p").2.1
      (by decide) (by decide),
    (errors_mapped_with_context envConnectFail ⟨0, 0, 0, 0⟩ "x" "p").2.2.1
      (by decide) (by decide) (by decide),
    (errors_mapped_with_context envAllFail ⟨0, 0, 0, 0⟩ "x" "p").2.2.2.1
      (by decide),
    (errors_mapped_with_context envAllFail ⟨0, 0, 0, 0⟩ "x" "p").2.2.2.2.1
      (by decide),
    (errors_mapped_with_context envAllFail
        ⟨0, 0, 0, 0⟩ "x" "p").2.2.2.2.2.1 0 256 (by decide),
    (errors_mapped_with_context envAllFail
        ⟨0, 0, 0, 0⟩ "x" "p").2.2.2.2.2.2 (by decide)⟩
